import Mathlib

/-!
Verification of the Consinco token-lifecycle manager.

Shallow embedding of the token cache in gerenciar_token.py (class
GerenciadorToken) and of the Basic-Auth dependency in main.py /
api_fastapi.py. Times are modelled as absolute instants in seconds
(Int); the 10-minute safety margin is 600 seconds and the 3-hour
reload correction is 10800 seconds. The two external parsing steps
(json.loads of the oAuthToken cookie value and strptime of its
.expires field) are abstracted as a Parser record of total functions
returning Option, so a parse failure models the caught exception.
HTTP traffic is modelled by passing the response as an explicit
input and returning the list of requests issued.
-/

/-- Model of the parsed oAuthToken cookie payload: the dict produced by
json.loads, keeping the two fields the manager reads. The expires field
holds the raw .expires string, still to be parsed by strptime. -/
structure TokenData where
  access_token : String
  expires : String
deriving DecidableEq, Repr

/-- Model of the two external parsing functions used by the manager:
jsonLoads models json.loads applied to the oAuthToken cookie value and
parseExpires models datetime.strptime of the .expires field (as an
absolute instant in seconds). none models a raised-and-caught exception. -/
structure Parser where
  jsonLoads : String → Option TokenData
  parseExpires : String → Option Int

/-- Mutable state of one GerenciadorToken instance: the in-memory token
dict, its parsed expiry instant, the requests.Session cookie jar, and the
on-disk cookie file (none when the file does not exist). -/
structure Estado where
  token_data : Option TokenData
  validade_token : Option Int
  session_cookies : List (String × String)
  arquivo : Option (List (String × String))
deriving DecidableEq, Repr

/-- Model of setting one cookie in a jar (requests cookie semantics:
replace the value when the name exists, append otherwise). -/
def cookieSet : List (String × String) → String → String → List (String × String)
  | [], n, v => [(n, v)]
  | (n', v') :: resto, n, v =>
    if n' == n then (n, v) :: resto else (n', v') :: cookieSet resto n v

/-- Model of merging the cookies of an HTTP response (or of a reloaded
cookie dict) into a session jar, one cookieSet per entry, in order. -/
def cookiesAtualiza (jar : List (String × String)) (novos : List (String × String)) :
    List (String × String) :=
  novos.foldl (fun j nv => cookieSet j nv.1 nv.2) jar

/-- Model of a login HTTP exchange: either a transport-level exception or
a response with a status code and the cookies it sets on the session. -/
inductive RespostaLogin where
  | transportException : RespostaLogin
  | resposta (status : Nat) (cookies : List (String × String)) : RespostaLogin
deriving DecidableEq, Repr

/-- Embedding of GerenciadorToken._token_precisa_renovar: true when there
is no token or no expiry, or when at most 600 seconds (10 minutes) remain. -/
def tokenPrecisaRenovar (st : Estado) (agora : Int) : Bool :=
  match st.validade_token, st.token_data with
  | some v, some _ => decide (v - agora ≤ 600)
  | _, _ => true

/-- Embedding of GerenciadorToken._token_e_valido: true when a token and
expiry are present and more than 600 seconds (10 minutes) remain. -/
def tokenEValido (st : Estado) (agora : Int) : Bool :=
  match st.validade_token, st.token_data with
  | some v, some _ => decide (v - agora > 600)
  | _, _ => false

/-- Embedding of GerenciadorToken._fazer_login. On any response the posted
session merges the response cookies; on status 200 the cookie dict is
dumped to the cookie file, then the oAuthToken cookie is looked up and
parsed (json.loads, then strptime of .expires); each failure returns
false with exactly the state mutations performed up to that point. -/
def fazerLogin (P : Parser) (st : Estado) (resp : RespostaLogin) : Bool × Estado :=
  match resp with
  | .transportException => (false, st)
  | .resposta status c =>
    let sess := cookiesAtualiza st.session_cookies c
    let st0 := { st with session_cookies := sess }
    if status == 200 then
      let cookies_dict := sess
      let st1 := { st0 with arquivo := some cookies_dict }
      match List.lookup "oAuthToken" cookies_dict with
      | some valor =>
        match P.jsonLoads valor with
        | some td =>
          let st2 := { st1 with token_data := some td }
          match P.parseExpires td.expires with
          | some dt => (true, { st2 with validade_token := some dt })
          | none => (false, st2)
        | none => (false, st1)
      | none => (false, st1)
    else (false, st0)

/-- Embedding of GerenciadorToken.carregar_token_salvo: read the cookie
file, look up oAuthToken, parse it, subtract the 3-hour (10800 s)
correction from the parsed expiry, replay every persisted cookie into the
session jar, and succeed exactly when the loaded token does not need
renewal. Failures return with the mutations performed up to that point. -/
def carregarTokenSalvo (P : Parser) (st : Estado) (agora : Int) : Bool × Estado :=
  match st.arquivo with
  | none => (false, st)
  | some cookies_dict =>
    match List.lookup "oAuthToken" cookies_dict with
    | none => (false, st)
    | some valor =>
      match P.jsonLoads valor with
      | none => (false, st)
      | some td =>
        let st1 := { st with token_data := some td }
        match P.parseExpires td.expires with
        | none => (false, st1)
        | some dt =>
          let st2 := { st1 with validade_token := some (dt - 10800) }
          let st3 := { st2 with
            session_cookies := cookiesAtualiza st2.session_cookies cookies_dict }
          if ¬ tokenPrecisaRenovar st3 agora then (true, st3) else (false, st3)

/-- State after the load-from-snapshot step of pegar_token_atualizado:
carregar_token_salvo runs only when no token dict is in memory. -/
def estadoAposCarregamento (P : Parser) (st : Estado) (agora : Int) : Estado :=
  match st.token_data with
  | none => (carregarTokenSalvo P st agora).2
  | some _ => st

/-- Result of one pegar_token_atualizado call: the returned value (none
models returning None), the state after the call, and how many login
HTTP calls were issued during the call. -/
structure ResultadoPegar where
  resultado : Option TokenData
  estado : Estado
  logins : Nat
deriving DecidableEq, Repr

/-- Embedding of GerenciadorToken.pegar_token_atualizado at one instant:
fast validity check, double-check under the lock, snapshot load when no
token dict is in memory, re-check, then login when renewal is needed,
returning None when the login fails. -/
def pegarTokenAtualizado (P : Parser) (st : Estado) (agora : Int) (resp : RespostaLogin) :
    ResultadoPegar :=
  if tokenEValido st agora then ⟨st.token_data, st, 0⟩
  else if tokenEValido st agora then ⟨st.token_data, st, 0⟩
  else
    let st1 := estadoAposCarregamento P st agora
    if tokenEValido st1 agora then ⟨st1.token_data, st1, 0⟩
    else if tokenPrecisaRenovar st1 agora then
      match fazerLogin P st1 resp with
      | (true, st2) => ⟨st2.token_data, st2, 1⟩
      | (false, st2) => ⟨none, st2, 1⟩
    else ⟨st1.token_data, st1, 0⟩

/-- Serialized composition of N pegar_token_atualizado calls on one
instance (the double-checked lock makes every state mutation happen
inside the exclusive section, so a concurrent execution linearizes to
such a sequence). Returns the list of results, the final state and the
total number of login calls issued. -/
def pegarN (P : Parser) (agora : Int) :
    List RespostaLogin → Estado → List (Option TokenData) × Estado × Nat
  | [], st => ([], st, 0)
  | r :: rs, st =>
    let p := pegarTokenAtualizado P st agora r
    let q := pegarN P agora rs p.estado
    (p.resultado :: q.1, q.2.1, p.logins + q.2.2)

/-- Embedding of GerenciadorToken.tempo_restante_token: none when no
expiry is recorded, the remaining time while positive, zero otherwise. -/
def tempoRestanteToken (st : Estado) (agora : Int) : Option Int :=
  match st.validade_token with
  | none => none
  | some v =>
    let tempo_restante := v - agora
    if tempo_restante > 0 then some tempo_restante else some 0

/-- Fields of the dict returned by GerenciadorToken.status_token. The
tempo_restante field mirrors the Python truthiness test: a zero remaining
time (falsy timedelta) is reported as None. -/
structure StatusInfo where
  token_valido : Bool
  validade : Option Int
  tempo_restante : Option Int
  precisa_renovar : Bool
deriving DecidableEq, Repr

/-- Embedding of GerenciadorToken.status_token: computes the four status
fields from the current state and returns the state it ran on (the
operation performs no mutation and issues no HTTP call). -/
def statusToken (st : Estado) (agora : Int) : StatusInfo × Estado :=
  let token_valido := st.token_data.isSome && !(tokenPrecisaRenovar st agora)
  let tempo_restante := tempoRestanteToken st agora
  (⟨token_valido,
    st.validade_token,
    match tempo_restante with
    | some t => if t == 0 then none else some t
    | none => none,
    tokenPrecisaRenovar st agora⟩, st)

/-- Helper: renewal is needed exactly when the token is not valid, at any
one instant, in every state. -/
theorem precisaRenovar_eq_not_valido (st : Estado) (agora : Int) :
    tokenPrecisaRenovar st agora = !(tokenEValido st agora) := by
  unfold tokenPrecisaRenovar tokenEValido
  rcases st.validade_token with _ | v <;> rcases st.token_data with _ | td
  · rfl
  · rfl
  · rfl
  · show decide (v - agora ≤ 600) = !decide (v - agora > 600)
    rw [← decide_not]
    exact decide_eq_decide.mpr (by omega)

/-- Helper: a valid token state has both a token dict and an expiry. -/
theorem tokenEValido_spec (st : Estado) (agora : Int) :
    tokenEValido st agora = true ↔
      ∃ v td, st.validade_token = some v ∧ st.token_data = some td ∧ v - agora > 600 := by
  unfold tokenEValido
  rcases h1 : st.validade_token with _ | v <;> rcases h2 : st.token_data with _ | td <;> simp

/-- Helper: keys of a jar after cookieSet. -/
theorem keys_cookieSet (jar : List (String × String)) (n v : String) :
    (cookieSet jar n v).map Prod.fst =
      if n ∈ jar.map Prod.fst then jar.map Prod.fst else jar.map Prod.fst ++ [n] := by
  induction jar with
  | nil => simp [cookieSet]
  | cons p resto ih =>
    obtain ⟨n', v'⟩ := p
    by_cases h : n' = n
    · subst h
      simp [cookieSet]
    · have hbeq : (n' == n) = false := by simp [h]
      simp only [cookieSet, hbeq, Bool.false_eq_true, if_false, List.map_cons, ih]
      by_cases hm : n ∈ resto.map Prod.fst <;> simp [hm, h, Ne.symm h]

/-- Helper: cookieSet preserves key uniqueness. -/
theorem nodup_cookieSet (jar : List (String × String)) (n v : String)
    (h : (jar.map Prod.fst).Nodup) : ((cookieSet jar n v).map Prod.fst).Nodup := by
  rw [keys_cookieSet]
  by_cases hm : n ∈ jar.map Prod.fst <;> simp [hm, h, List.Nodup.append, List.nodup_append]

/-- Helper: cookiesAtualiza preserves key uniqueness. -/
theorem nodup_cookiesAtualiza (novos : List (String × String)) (jar : List (String × String))
    (h : (jar.map Prod.fst).Nodup) : ((cookiesAtualiza jar novos).map Prod.fst).Nodup := by
  induction novos generalizing jar with
  | nil => exact h
  | cons p resto ih =>
    simp only [cookiesAtualiza, List.foldl_cons] at *
    exact ih _ (nodup_cookieSet jar p.1 p.2 h)

/-- Helper: setting a cookie whose name is absent appends it. -/
theorem cookieSet_not_mem (jar : List (String × String)) (n v : String)
    (h : n ∉ jar.map Prod.fst) : cookieSet jar n v = jar ++ [(n, v)] := by
  induction jar with
  | nil => rfl
  | cons p resto ih =>
    obtain ⟨n', v'⟩ := p
    simp only [List.map_cons, List.mem_cons] at h
    push_neg at h
    have hbeq : (n' == n) = false := by simp [Ne.symm h.1]
    simp [cookieSet, hbeq, ih h.2]

/-- Helper: replaying a cookie dict with fresh distinct names appends it. -/
theorem cookiesAtualiza_disjoint (novos : List (String × String)) (jar : List (String × String))
    (hnodup : (novos.map Prod.fst).Nodup)
    (hdisj : ∀ n ∈ novos.map Prod.fst, n ∉ jar.map Prod.fst) :
    cookiesAtualiza jar novos = jar ++ novos := by
  induction novos generalizing jar with
  | nil => simp [cookiesAtualiza]
  | cons p resto ih =>
    obtain ⟨n, v⟩ := p
    simp only [List.map_cons, List.nodup_cons] at hnodup
    have hmem : n ∉ jar.map Prod.fst := hdisj n (by simp)
    simp only [cookiesAtualiza, List.foldl_cons] at *
    rw [cookieSet_not_mem jar n v hmem]
    rw [ih (jar ++ [(n, v)]) hnodup.2]
    · simp
    · intro m hm
      simp only [List.map_append, List.mem_append, List.map_cons] at *
      push_neg
      constructor
      · exact hdisj m (by simp [hm])
      · simp only [List.map_nil, List.mem_singleton]
        intro hc
        exact hnodup.1 (hc ▸ hm)

/-- Helper: replaying a key-distinct cookie dict into an empty jar yields
exactly that dict. -/
theorem cookiesAtualiza_nil (novos : List (String × String))
    (hnodup : (novos.map Prod.fst).Nodup) : cookiesAtualiza [] novos = novos := by
  have := cookiesAtualiza_disjoint novos [] hnodup (by simp)
  simpa using this

/-- C3: the validity predicate holds iff a token and expiry are present
with strictly more than 600 seconds (10 minutes) remaining, the
needs-renewal predicate holds iff the token or expiry is missing or at
most 600 seconds remain (so exactly 10 minutes remaining is invalid and
10 minutes 1 second is valid), and at any one instant the two predicates
are exact complements. -/
theorem C3_predicados_validade (st : Estado) (agora : Int) :
    (tokenEValido st agora = true ↔
      ∃ v td, st.validade_token = some v ∧ st.token_data = some td ∧ v - agora > 600) ∧
    (tokenPrecisaRenovar st agora = true ↔
      (st.validade_token = none ∨ st.token_data = none ∨
        ∃ v, st.validade_token = some v ∧ v - agora ≤ 600)) ∧
    (tokenPrecisaRenovar st agora = !(tokenEValido st agora)) := by
  refine ⟨tokenEValido_spec st agora, ?_, precisaRenovar_eq_not_valido st agora⟩
  unfold tokenPrecisaRenovar
  rcases h1 : st.validade_token with _ | v <;> rcases h2 : st.token_data with _ | td <;> simp

/-- C10: tempo_restante_token returns None exactly when no expiry is
recorded, never returns a negative duration, returns the positive
difference while the expiry is in the future, and returns exactly zero
once the expiry has passed. -/
theorem C10_tempo_restante_nao_negativo (st : Estado) (agora : Int) :
    (tempoRestanteToken st agora = none ↔ st.validade_token = none) ∧
    (∀ t, tempoRestanteToken st agora = some t → 0 ≤ t) ∧
    (∀ v, st.validade_token = some v →
      (agora < v → tempoRestanteToken st agora = some (v - agora)) ∧
      (v ≤ agora → tempoRestanteToken st agora = some 0)) := by
  rcases h1 : st.validade_token with _ | v
  · refine ⟨by simp [tempoRestanteToken, h1], ?_, ?_⟩
    · intro t ht
      simp [tempoRestanteToken, h1] at ht
    · intro w hw
      exact absurd hw (by simp)
  · refine ⟨?_, ?_, ?_⟩
    · simp only [tempoRestanteToken, h1]
      constructor
      · intro h
        split at h <;> simp_all
      · intro h
        exact absurd h (by simp)
    · intro t ht
      simp only [tempoRestanteToken, h1] at ht
      split at ht <;> simp_all
      omega
    · intro w hw
      obtain rfl : v = w := by simpa using hw
      constructor
      · intro hlt
        simp [tempoRestanteToken, h1, show v - agora > 0 by omega]
      · intro hle
        simp [tempoRestanteToken, h1, show ¬ v - agora > 0 by omega]

/-- C10 witness: concrete evaluations of the three cases. -/
theorem C10_tempo_restante_nao_negativo_witness :
    tempoRestanteToken ⟨none, some 1000, [], none⟩ 300 = some 700 ∧
    tempoRestanteToken ⟨none, some 1000, [], none⟩ 5000 = some 0 ∧
    tempoRestanteToken ⟨none, none, [], none⟩ 0 = none := by
  refine ⟨((C10_tempo_restante_nao_negativo ⟨none, some 1000, [], none⟩ 300).2.2 1000
      rfl).1 (by decide), ?_, ?_⟩
  · exact ((C10_tempo_restante_nao_negativo ⟨none, some 1000, [], none⟩ 5000).2.2 1000
      rfl).2 (by decide)
  · exact (C10_tempo_restante_nao_negativo ⟨none, none, [], none⟩ 0).1.mpr rfl

/-- C8: status_token is read-only: it returns the state unchanged and
performs no login (its embedding takes no HTTP response at all); its
token_valido field equals the validity predicate, its precisa_renovar
field is the exact complement of validity (true exactly when the token
or expiry is missing or at most 10 minutes remain), its validade field
is the recorded expiry, and its tempo_restante field is the remaining
time with the Python falsy-zero reported as None. -/
theorem C8_status_token_somente_leitura (st : Estado) (agora : Int) :
    ((statusToken st agora).2 = st) ∧
    ((statusToken st agora).1.token_valido = tokenEValido st agora) ∧
    ((statusToken st agora).1.precisa_renovar = !(tokenEValido st agora)) ∧
    ((statusToken st agora).1.precisa_renovar = true ↔
      (st.validade_token = none ∨ st.token_data = none ∨
        ∃ v, st.validade_token = some v ∧ v - agora ≤ 600)) ∧
    ((statusToken st agora).1.validade = st.validade_token) ∧
    ((statusToken st agora).1.tempo_restante =
      match tempoRestanteToken st agora with
      | some t => if t == 0 then none else some t
      | none => none) := by
  refine ⟨rfl, ?_, ?_, ?_, rfl, rfl⟩
  · show (st.token_data.isSome && !(tokenPrecisaRenovar st agora)) = tokenEValido st agora
    rw [precisaRenovar_eq_not_valido, Bool.not_not]
    rcases h : tokenEValido st agora with _ | _
    · simp
    · obtain ⟨v, td, h1, h2, h3⟩ := (tokenEValido_spec st agora).mp h
      simp [h2]
  · show tokenPrecisaRenovar st agora = _
    exact precisaRenovar_eq_not_valido st agora
  · show tokenPrecisaRenovar st agora = true ↔ _
    unfold tokenPrecisaRenovar
    rcases h1 : st.validade_token with _ | v <;> rcases h2 : st.token_data with _ | td <;> simp

/-- Helper: while the in-memory token is valid, any sequence of calls
takes the fast path: every call returns the current token, the state is
unchanged and zero login calls are issued. -/
theorem pegarN_valido (P : Parser) (agora : Int) (resps : List RespostaLogin) (st : Estado)
    (h : tokenEValido st agora = true) :
    pegarN P agora resps st = (List.replicate resps.length st.token_data, st, 0) := by
  induction resps with
  | nil => rfl
  | cons r rs ih =>
    have hp : pegarTokenAtualizado P st agora r = ⟨st.token_data, st, 0⟩ := by
      unfold pegarTokenAtualizado
      simp [h]
    simp [pegarN, hp, ih, List.replicate_succ]

/-- C6: idempotence of the fast path: while the in-memory token is valid
(more than 10 minutes remaining), any number of repeated
pegar_token_atualizado calls issue zero login calls, each returns the
current in-memory token, and the state is left unchanged. -/
theorem C6_caminho_rapido_idempotente (P : Parser) (agora : Int)
    (resps : List RespostaLogin) (st : Estado) (h : tokenEValido st agora = true) :
    pegarN P agora resps st = (List.replicate resps.length st.token_data, st, 0) :=
  pegarN_valido P agora resps st h

/-- C6 witness: two repeated calls on a concrete valid state return the
token twice, keep the state, and issue zero logins. -/
theorem C6_caminho_rapido_idempotente_witness :
    pegarN ⟨fun _ => none, fun _ => none⟩ 0
      [RespostaLogin.transportException, RespostaLogin.transportException]
      ⟨some ⟨"a", "e"⟩, some 1000, [], none⟩ =
      ([some ⟨"a", "e"⟩, some ⟨"a", "e"⟩], ⟨some ⟨"a", "e"⟩, some 1000, [], none⟩, 0) := by
  have h := C6_caminho_rapido_idempotente ⟨fun _ => none, fun _ => none⟩ 0
    [RespostaLogin.transportException, RespostaLogin.transportException]
    ⟨some ⟨"a", "e"⟩, some 1000, [], none⟩ (by decide)
  simpa using h

/-- C4: serialized concurrent renewal: when the cached token is not valid
and the snapshot load leaves no valid token either, N lock-serialized
pegar_token_atualizado calls with a login response that parses to a fresh
expiry (more than 10 minutes ahead) issue exactly one login call in
total, and all N calls return the same freshly issued token. -/
theorem C4_renovacao_concorrente_unica (P : Parser) (st : Estado) (agora : Int)
    (c : List (String × String)) (rest : List RespostaLogin)
    (v : String) (td : TokenData) (e : Int)
    (hfast : tokenEValido st agora = false)
    (hload : tokenEValido (estadoAposCarregamento P st agora) agora = false)
    (hv : List.lookup "oAuthToken"
      (cookiesAtualiza (estadoAposCarregamento P st agora).session_cookies c) = some v)
    (hj : P.jsonLoads v = some td)
    (he : P.parseExpires td.expires = some e)
    (hfresh : e - agora > 600) :
    (pegarN P agora (RespostaLogin.resposta 200 c :: rest) st).2.2 = 1 ∧
    (pegarN P agora (RespostaLogin.resposta 200 c :: rest) st).1 =
      List.replicate (rest.length + 1) (some td) := by
  have hlogin : fazerLogin P (estadoAposCarregamento P st agora)
      (RespostaLogin.resposta 200 c) =
      (true, ⟨some td, some e,
        cookiesAtualiza (estadoAposCarregamento P st agora).session_cookies c,
        some (cookiesAtualiza (estadoAposCarregamento P st agora).session_cookies c)⟩) := by
    unfold fazerLogin
    simp [hv, hj, he]
  have hprec : tokenPrecisaRenovar (estadoAposCarregamento P st agora) agora = true := by
    rw [precisaRenovar_eq_not_valido, hload]
    rfl
  have hp1 : pegarTokenAtualizado P st agora (RespostaLogin.resposta 200 c) =
      ⟨some td, ⟨some td, some e,
        cookiesAtualiza (estadoAposCarregamento P st agora).session_cookies c,
        some (cookiesAtualiza (estadoAposCarregamento P st agora).session_cookies c)⟩, 1⟩ := by
    unfold pegarTokenAtualizado
    simp [hfast, hload, hprec, hlogin]
  have hvalid2 : tokenEValido
      (⟨some td, some e,
        cookiesAtualiza (estadoAposCarregamento P st agora).session_cookies c,
        some (cookiesAtualiza (estadoAposCarregamento P st agora).session_cookies c)⟩ :
        Estado) agora = true := by
    unfold tokenEValido
    exact decide_eq_true hfresh
  have hrest := pegarN_valido P agora rest _ hvalid2
  simp [pegarN, hp1, hrest, List.replicate_succ]

/-- C4 witness: a concrete fresh cache, one good login response followed
by a second call, yields one login and twice the same token. -/
theorem C4_renovacao_concorrente_unica_witness :
    (pegarN ⟨fun s => if s == "tok" then some ⟨"AT", "exp"⟩ else none,
        fun s => if s == "exp" then some 1000 else none⟩ 0
      [RespostaLogin.resposta 200 [("oAuthToken", "tok")], RespostaLogin.transportException]
      ⟨none, none, [], none⟩).2.2 = 1 ∧
    (pegarN ⟨fun s => if s == "tok" then some ⟨"AT", "exp"⟩ else none,
        fun s => if s == "exp" then some 1000 else none⟩ 0
      [RespostaLogin.resposta 200 [("oAuthToken", "tok")], RespostaLogin.transportException]
      ⟨none, none, [], none⟩).1 = [some ⟨"AT", "exp"⟩, some ⟨"AT", "exp"⟩] := by
  have h := C4_renovacao_concorrente_unica
    ⟨fun s => if s == "tok" then some ⟨"AT", "exp"⟩ else none,
     fun s => if s == "exp" then some 1000 else none⟩
    ⟨none, none, [], none⟩ 0 [("oAuthToken", "tok")] [RespostaLogin.transportException]
    "tok" ⟨"AT", "exp"⟩ 1000 (by decide) (by decide) (by decide) (by decide) (by decide)
    (by decide)
  exact ⟨h.1, by simpa using h.2⟩

/-- C1 counterexample: pegar_token_atualizado can return a token that is
not valid at the instant of return. With a login response whose parsed
expiry equals the current instant, the call performs the login, adopts
the fresh token without re-checking the validity predicate, and returns
it even though the validity predicate is false at that instant. -/
theorem C1_contraexemplo :
    (pegarTokenAtualizado ⟨fun _ => some ⟨"at", "x"⟩, fun _ => some 0⟩
      ⟨none, none, [], none⟩ 0
      (RespostaLogin.resposta 200 [("oAuthToken", "tok")])).resultado =
      some ⟨"at", "x"⟩ ∧
    tokenEValido (pegarTokenAtualizado ⟨fun _ => some ⟨"at", "x"⟩, fun _ => some 0⟩
      ⟨none, none, [], none⟩ 0
      (RespostaLogin.resposta 200 [("oAuthToken", "tok")])).estado 0 = false := by
  decide

/-- C1 amended: a token returned without issuing a login call is valid
at the instant of return; a token returned after a login call is the
freshly adopted in-memory token, returned only when the login succeeded
and without any re-check of the validity predicate; a call that returns
no token is one that issued a login call; and whenever the call reaches
the login step and the login fails, the call returns None (the
AuthenticationError outcome) rather than a token. -/
theorem C1_pegar_token_corrigido (P : Parser) (st : Estado) (agora : Int)
    (resp : RespostaLogin) :
    ((pegarTokenAtualizado P st agora resp).logins = 0 →
      ∀ td, (pegarTokenAtualizado P st agora resp).resultado = some td →
        tokenEValido (pegarTokenAtualizado P st agora resp).estado agora = true) ∧
    ((pegarTokenAtualizado P st agora resp).resultado = none →
      (pegarTokenAtualizado P st agora resp).logins = 1) ∧
    (∀ td, (pegarTokenAtualizado P st agora resp).logins = 1 →
      (pegarTokenAtualizado P st agora resp).resultado = some td →
      (pegarTokenAtualizado P st agora resp).estado.token_data = some td ∧
      (fazerLogin P (estadoAposCarregamento P st agora) resp).1 = true) ∧
    (tokenEValido st agora = false →
      tokenEValido (estadoAposCarregamento P st agora) agora = false →
      (fazerLogin P (estadoAposCarregamento P st agora) resp).1 = false →
      (pegarTokenAtualizado P st agora resp).resultado = none) := by
  by_cases h0 : tokenEValido st agora
  · have hp : pegarTokenAtualizado P st agora resp = ⟨st.token_data, st, 0⟩ := by
      unfold pegarTokenAtualizado
      simp [h0]
    refine ⟨?_, ?_, ?_, ?_⟩
    · intro _ td _
      rw [hp]
      exact h0
    · intro hres
      rw [hp] at hres
      obtain ⟨v, td, h1, h2, h3⟩ := (tokenEValido_spec st agora).mp h0
      rw [h2] at hres
      exact absurd hres (by simp)
    · intro td hl
      rw [hp] at hl
      exact absurd hl (by simp)
    · intro hc
      exact absurd hc (by simp [h0])
  · have h0f : tokenEValido st agora = false := by simpa using h0
    by_cases h1 : tokenEValido (estadoAposCarregamento P st agora) agora
    · have hp : pegarTokenAtualizado P st agora resp =
          ⟨(estadoAposCarregamento P st agora).token_data,
           estadoAposCarregamento P st agora, 0⟩ := by
        unfold pegarTokenAtualizado
        simp [h0f, h1]
      refine ⟨?_, ?_, ?_, ?_⟩
      · intro _ td _
        rw [hp]
        exact h1
      · intro hres
        rw [hp] at hres
        obtain ⟨v, td, hv1, hv2, hv3⟩ :=
          (tokenEValido_spec (estadoAposCarregamento P st agora) agora).mp h1
        rw [hv2] at hres
        exact absurd hres (by simp)
      · intro td hl
        rw [hp] at hl
        exact absurd hl (by simp)
      · intro _ hc
        exact absurd hc (by simp [h1])
    · have h1f : tokenEValido (estadoAposCarregamento P st agora) agora = false := by
        simpa using h1
      have hprec : tokenPrecisaRenovar (estadoAposCarregamento P st agora) agora = true := by
        rw [precisaRenovar_eq_not_valido, h1f]
        rfl
      rcases hf : fazerLogin P (estadoAposCarregamento P st agora) resp with ⟨ok, st2⟩
      rcases ok with _ | _
      · have hp : pegarTokenAtualizado P st agora resp = ⟨none, st2, 1⟩ := by
          unfold pegarTokenAtualizado
          simp [h0f, h1f, hprec, hf]
        refine ⟨?_, ?_, ?_, ?_⟩
        · intro hl
          rw [hp] at hl
          exact absurd hl (by simp)
        · intro _
          rw [hp]
        · intro td _ hres
          rw [hp] at hres
          exact absurd hres (by simp)
        · intro _ _ _
          rw [hp]
      · have hp : pegarTokenAtualizado P st agora resp = ⟨st2.token_data, st2, 1⟩ := by
          unfold pegarTokenAtualizado
          simp [h0f, h1f, hprec, hf]
        refine ⟨?_, ?_, ?_, ?_⟩
        · intro hl
          rw [hp] at hl
          exact absurd hl (by simp)
        · intro hres
          rw [hp]
        · intro td _ hres
          rw [hp] at hres
          rw [hp]
          exact ⟨hres, by simp [hf]⟩
        · intro _ _ hc
          simp [hf] at hc

/-- C1 witness: a call on a concrete valid state returns a token that is
valid at the instant of return, and a concrete call whose login fails
returns None. -/
theorem C1_pegar_token_corrigido_witness :
    tokenEValido (pegarTokenAtualizado ⟨fun _ => none, fun _ => none⟩
      ⟨some ⟨"a", "e"⟩, some 1000, [], none⟩ 0
      RespostaLogin.transportException).estado 0 = true ∧
    (pegarTokenAtualizado ⟨fun _ => none, fun _ => none⟩
      ⟨none, none, [], none⟩ 0 RespostaLogin.transportException).resultado = none := by
  constructor
  · exact (C1_pegar_token_corrigido ⟨fun _ => none, fun _ => none⟩
      ⟨some ⟨"a", "e"⟩, some 1000, [], none⟩ 0 RespostaLogin.transportException).1
      (by decide) ⟨"a", "e"⟩ (by decide)
  · exact (C1_pegar_token_corrigido ⟨fun _ => none, fun _ => none⟩
      ⟨none, none, [], none⟩ 0 RespostaLogin.transportException).2.2.2
      (by decide) (by decide) (by decide)

/-- C2 counterexample: a 200 login response whose cookies lack the
oAuthToken field makes the login fail, yet the cookie file (the Durable
Snapshot) is written by that failed login: it goes from absent to the
full cookie dict of the response. -/
theorem C2_contraexemplo :
    (fazerLogin ⟨fun _ => none, fun _ => none⟩ ⟨none, none, [], none⟩
      (RespostaLogin.resposta 200 [("a", "b")])).1 = false ∧
    (fazerLogin ⟨fun _ => none, fun _ => none⟩ ⟨none, none, [], none⟩
      (RespostaLogin.resposta 200 [("a", "b")])).2.arquivo = some [("a", "b")] := by
  decide

/-- C2 amended: every login failure (transport error, non-200 status,
missing or unparsable token field) returns the failure outcome; on a
transport error no state changes, and on a non-200 response only the
session cookie jar is merged, with no snapshot written and no token
state adopted; however on every 200 response the snapshot is written
before the token field is checked, so a failed login whose response has
status 200 without a usable oAuthToken cookie does write the snapshot. -/
theorem C2_login_falho_sem_snapshot_corrigido (P : Parser) (st : Estado) :
    (fazerLogin P st RespostaLogin.transportException = (false, st)) ∧
    (∀ status c, status ≠ 200 →
      fazerLogin P st (RespostaLogin.resposta status c) =
        (false, { st with session_cookies := cookiesAtualiza st.session_cookies c })) ∧
    (∀ c, (fazerLogin P st (RespostaLogin.resposta 200 c)).2.arquivo =
      some (cookiesAtualiza st.session_cookies c)) ∧
    (∀ c, List.lookup "oAuthToken" (cookiesAtualiza st.session_cookies c) = none →
      fazerLogin P st (RespostaLogin.resposta 200 c) =
        (false, { st with
                    session_cookies := cookiesAtualiza st.session_cookies c,
                    arquivo := some (cookiesAtualiza st.session_cookies c) })) := by
  refine ⟨rfl, ?_, ?_, ?_⟩
  · intro status c hs
    unfold fazerLogin
    have : (status == 200) = false := by simpa using hs
    simp [this]
  · intro c
    unfold fazerLogin
    rcases hb : List.lookup "oAuthToken" (cookiesAtualiza st.session_cookies c) with _ | valor
    · simp [hb]
    · rcases hj : P.jsonLoads valor with _ | td
      · simp [hb, hj]
      · rcases he : P.parseExpires td.expires with _ | dt <;> simp [hb, hj, he]
  · intro c hb
    unfold fazerLogin
    simp [hb]

/-- C2 witness: a concrete non-200 login response fails, merges the
session cookies, and writes no snapshot and no token state. -/
theorem C2_login_falho_sem_snapshot_corrigido_witness :
    fazerLogin ⟨fun _ => none, fun _ => none⟩ ⟨none, none, [], none⟩
      (RespostaLogin.resposta 500 [("a", "b")]) =
      (false, ⟨none, none, [("a", "b")], none⟩) := by
  have h := (C2_login_falho_sem_snapshot_corrigido ⟨fun _ => none, fun _ => none⟩
    ⟨none, none, [], none⟩).2.1 500 [("a", "b")] (by decide)
  exact h.trans (by decide)

/-- C5: round-trip through the Durable Snapshot: a successful login on a
jar with distinct cookie names adopts the parsed token and expiry and
persists the merged cookie dict; reloading that dict into a fresh cache
for the same environment yields the same token dict, an expiry equal to
the login-time expiry minus the fixed 3-hour (10800 s) correction, and a
session jar holding exactly the persisted name-to-value mapping. -/
theorem C5_ida_e_volta_snapshot (P : Parser) (st : Estado) (agora2 : Int)
    (c : List (String × String)) (v : String) (td : TokenData) (e : Int)
    (hnodup : (st.session_cookies.map Prod.fst).Nodup)
    (hv : List.lookup "oAuthToken" (cookiesAtualiza st.session_cookies c) = some v)
    (hj : P.jsonLoads v = some td)
    (he : P.parseExpires td.expires = some e) :
    fazerLogin P st (RespostaLogin.resposta 200 c) =
      (true, ⟨some td, some e, cookiesAtualiza st.session_cookies c,
        some (cookiesAtualiza st.session_cookies c)⟩) ∧
    (carregarTokenSalvo P ⟨none, none, [], some (cookiesAtualiza st.session_cookies c)⟩
        agora2).2 =
      ⟨some td, some (e - 10800), cookiesAtualiza st.session_cookies c,
        some (cookiesAtualiza st.session_cookies c)⟩ := by
  have hd : cookiesAtualiza [] (cookiesAtualiza st.session_cookies c) =
      cookiesAtualiza st.session_cookies c :=
    cookiesAtualiza_nil _ (nodup_cookiesAtualiza c st.session_cookies hnodup)
  constructor
  · unfold fazerLogin
    simp [hv, hj, he]
  · unfold carregarTokenSalvo
    simp only [hv, hj, he]
    split <;> simp [hd]

/-- C5 witness: a concrete login followed by a reload of the written
snapshot reproduces the token with the expiry shifted back 3 hours and
replays the persisted cookie pair unchanged. -/
theorem C5_ida_e_volta_snapshot_witness :
    fazerLogin ⟨fun s => if s == "tok" then some ⟨"AT", "exp"⟩ else none,
        fun s => if s == "exp" then some 50000 else none⟩
      ⟨none, none, [], none⟩ (RespostaLogin.resposta 200 [("oAuthToken", "tok")]) =
      (true, ⟨some ⟨"AT", "exp"⟩, some 50000, [("oAuthToken", "tok")],
        some [("oAuthToken", "tok")]⟩) ∧
    (carregarTokenSalvo ⟨fun s => if s == "tok" then some ⟨"AT", "exp"⟩ else none,
        fun s => if s == "exp" then some 50000 else none⟩
      ⟨none, none, [], some [("oAuthToken", "tok")]⟩ 0).2 =
      ⟨some ⟨"AT", "exp"⟩, some 39200, [("oAuthToken", "tok")],
        some [("oAuthToken", "tok")]⟩ := by
  have h := C5_ida_e_volta_snapshot
    ⟨fun s => if s == "tok" then some ⟨"AT", "exp"⟩ else none,
     fun s => if s == "exp" then some 50000 else none⟩
    ⟨none, none, [], none⟩ 0 [("oAuthToken", "tok")] "tok" ⟨"AT", "exp"⟩ 50000
    (by decide) (by decide) (by decide) (by decide)
  exact ⟨h.1.trans (by decide), h.2.trans (by decide)⟩

/-- Literal placeholder used by consulta_sql in its body template. -/
def padraoSQLText : String := "\x7bSQL_TEXT\x7d"

/-- Characters of the placeholder. -/
def padraoChars : List Char := padraoSQLText.data

/-- Model of the Python str.replace scan with explicit fuel (the fuel is
the length of the scanned text, enough for every step): replace each
non-overlapping occurrence of the placeholder left to right, never
rescanning the inserted replacement. -/
def substituiTodasAux (novo : List Char) : Nat → List Char → List Char
  | 0, l => l
  | _ + 1, [] => []
  | fuel + 1, c :: resto =>
    if padraoChars.isPrefixOf (c :: resto) then
      novo ++ substituiTodasAux novo fuel ((c :: resto).drop padraoChars.length)
    else c :: substituiTodasAux novo fuel resto

/-- Model of Python str.replace of the placeholder by novo in texto. -/
def substituiTodas (novo texto : List Char) : List Char :=
  substituiTodasAux novo texto.length texto

/-- Literal body template of consulta_sql (the Python triple-quoted
string body2, with its exact whitespace). -/
def corpoModeloSQL : String :=
  "\n        \x7b\n            \"CommandText\": \"\x7bSQL_TEXT\x7d\",\n            \"ConnectionType\": 0,\n            \"Limit\": null\n        \x7d\n        "

/-- Embedding of the body construction in consulta_sql:
body2.replace applied to the placeholder and the SQL text. -/
def montarCorpoSQL (sql_text : String) : String :=
  String.mk (substituiTodas sql_text.data corpoModeloSQL.data)

/-- Part of the body template before the placeholder. -/
def corpoPrefixoSQL : String := "\n        \x7b\n            \"CommandText\": \""

/-- Part of the body template after the placeholder. -/
def corpoSufixoSQL : String :=
  "\",\n            \"ConnectionType\": 0,\n            \"Limit\": null\n        \x7d\n        "

set_option maxRecDepth 4000 in
/-- Helper: the body built by consulta_sql is the template with the SQL
text substituted verbatim in place of the placeholder, for every SQL
text, with no escaping of the inserted characters. -/
theorem montarCorpoSQL_eq (sql_text : String) :
    montarCorpoSQL sql_text = corpoPrefixoSQL ++ sql_text ++ corpoSufixoSQL := by
  obtain ⟨l⟩ := sql_text
  rfl

/-- Model of one request issued by consulta_sql: target URL, raw body
string, headers. -/
structure RequisicaoSQL where
  url : String
  corpo : String
  headers : List (String × String)
deriving DecidableEq, Repr

/-- Model of the response of the SQL endpoint: status code and the JSON
body kept opaque as a string. -/
structure RespostaSQL where
  status : Nat
  corpo : String
deriving DecidableEq, Repr

/-- Embedding of GerenciadorToken.consulta_sql at the point where an
access token is available: build the body by substitution, issue exactly
one POST with the bearer header, return the parsed body on status 200
and None with the surfaced status code otherwise (no retry). -/
def consultaSQL (api_sql_url access_token sql_text : String) (resp : RespostaSQL) :
    Option String × List RequisicaoSQL × Option Nat :=
  let requisicao : RequisicaoSQL :=
    ⟨api_sql_url, montarCorpoSQL sql_text,
     [("Content-Type", "application/json"), ("Accept", "application/json"),
      ("Authorization", "Bearer " ++ access_token)]⟩
  if resp.status == 200 then (some resp.corpo, [requisicao], none)
  else (none, [requisicao], some resp.status)

/-- C7: consulta_sql issues exactly one request whose body is the literal
JSON template with the SQL text substituted verbatim and whose headers
carry Authorization Bearer with the access token; on HTTP 200 it returns
the response body with no error, and on any other status it returns the
failure result (None) and surfaces that status code, issuing no retry
(the single-element request list covers every branch). -/
theorem C7_consulta_sql_contrato (api_sql_url access_token sql_text : String)
    (resp : RespostaSQL) :
    (consultaSQL api_sql_url access_token sql_text resp).2.1 =
      [⟨api_sql_url, corpoPrefixoSQL ++ sql_text ++ corpoSufixoSQL,
        [("Content-Type", "application/json"), ("Accept", "application/json"),
         ("Authorization", "Bearer " ++ access_token)]⟩] ∧
    (resp.status = 200 →
      (consultaSQL api_sql_url access_token sql_text resp).1 = some resp.corpo ∧
      (consultaSQL api_sql_url access_token sql_text resp).2.2 = none) ∧
    (resp.status ≠ 200 →
      (consultaSQL api_sql_url access_token sql_text resp).1 = none ∧
      (consultaSQL api_sql_url access_token sql_text resp).2.2 = some resp.status) := by
  refine ⟨?_, ?_, ?_⟩
  · unfold consultaSQL
    split <;> simp [montarCorpoSQL_eq]
  · intro h
    simp [consultaSQL, h]
  · intro h
    have hb : (resp.status == 200) = false := by simpa using h
    simp [consultaSQL, hb]

/-- C7 witness: a concrete 200 response returns the body with one
request issued, and a concrete 500 response fails surfacing 500. -/
theorem C7_consulta_sql_contrato_witness :
    (consultaSQL "u" "T" "SELECT 1" ⟨200, "corpo"⟩).1 = some "corpo" ∧
    (consultaSQL "u" "T" "SELECT 1" ⟨500, "erro"⟩).1 = none ∧
    (consultaSQL "u" "T" "SELECT 1" ⟨500, "erro"⟩).2.2 = some 500 ∧
    (consultaSQL "u" "T" "SELECT 1" ⟨200, "corpo"⟩).2.1 =
      [⟨"u", corpoPrefixoSQL ++ "SELECT 1" ++ corpoSufixoSQL,
        [("Content-Type", "application/json"), ("Accept", "application/json"),
         ("Authorization", "Bearer T")]⟩] := by
  refine ⟨((C7_consulta_sql_contrato "u" "T" "SELECT 1" ⟨200, "corpo"⟩).2.1 rfl).1,
    ((C7_consulta_sql_contrato "u" "T" "SELECT 1" ⟨500, "erro"⟩).2.2 (by decide)).1,
    ((C7_consulta_sql_contrato "u" "T" "SELECT 1" ⟨500, "erro"⟩).2.2 (by decide)).2,
    ((C7_consulta_sql_contrato "u" "T" "SELECT 1" ⟨200, "corpo"⟩).1).trans (by rfl)⟩

/-- Basic-Auth credentials supplied by an HTTP request. -/
structure Credenciais where
  username : String
  password : String
deriving DecidableEq, Repr

/-- Outcome of the Basic-Auth dependency: pass-through with the username,
or an HTTP error with status, detail and response headers. -/
inductive ResultadoAuth where
  | ok (username : String) : ResultadoAuth
  | erro (status_code : Nat) (detail : String) (headers : List (String × String)) :
      ResultadoAuth
deriving DecidableEq, Repr

/-- Embedding of verificar_autenticacao (identical in main.py and
api_fastapi.py): constant-time equality of username and password against
the configured values; any mismatch raises HTTP 401 with the
WWW-Authenticate Basic header, a full match passes the username through. -/
def verificarAutenticacao (validUsername validPassword : String) (c : Credenciais) :
    ResultadoAuth :=
  let correct_username := c.username == validUsername
  let correct_password := c.password == validPassword
  if ¬(correct_username && correct_password) then
    ResultadoAuth.erro 401 "Credenciais inválidas" [("WWW-Authenticate", "Basic")]
  else ResultadoAuth.ok c.username

/-- C9: a request whose username or password (or both) differ from the
configured values is rejected with HTTP 401 carrying the header
WWW-Authenticate Basic, and a request where both match passes through
to the handler with the username. -/
theorem C9_autenticacao_basic (validUsername validPassword : String) (c : Credenciais) :
    ((c.username ≠ validUsername ∨ c.password ≠ validPassword) →
      verificarAutenticacao validUsername validPassword c =
        ResultadoAuth.erro 401 "Credenciais inválidas" [("WWW-Authenticate", "Basic")]) ∧
    (c.username = validUsername → c.password = validPassword →
      verificarAutenticacao validUsername validPassword c = ResultadoAuth.ok c.username) := by
  constructor
  · intro h
    unfold verificarAutenticacao
    rcases h with h | h <;> simp [h]
  · intro h1 h2
    unfold verificarAutenticacao
    simp [h1, h2]

/-- C9 witness: concrete wrong-password and wrong-username requests are
rejected with 401 and the Basic challenge, a correct pair passes. -/
theorem C9_autenticacao_basic_witness :
    verificarAutenticacao "admin" "s3cret" ⟨"admin", "errada"⟩ =
      ResultadoAuth.erro 401 "Credenciais inválidas" [("WWW-Authenticate", "Basic")] ∧
    verificarAutenticacao "admin" "s3cret" ⟨"outra", "s3cret"⟩ =
      ResultadoAuth.erro 401 "Credenciais inválidas" [("WWW-Authenticate", "Basic")] ∧
    verificarAutenticacao "admin" "s3cret" ⟨"admin", "s3cret"⟩ =
      ResultadoAuth.ok "admin" :=
  ⟨(C9_autenticacao_basic "admin" "s3cret" ⟨"admin", "errada"⟩).1 (Or.inr (by decide)),
   (C9_autenticacao_basic "admin" "s3cret" ⟨"outra", "s3cret"⟩).1 (Or.inl (by decide)),
   (C9_autenticacao_basic "admin" "s3cret" ⟨"admin", "s3cret"⟩).2 rfl rfl⟩
